import Mathlib

/-!
Shallow embedding of the ishtrak RAG (retrieval-augmented generation) core:
keyword extraction, relevance scoring, knowledge retrieval, knowledge
promotion on user ratings, and the fallback template generators, together
with theorems settling the frozen claims about the system.

Conventions of the embedding:
* JavaScript numbers are modelled as exact rationals (`ℚ`).  The one spot
  where IEEE semantics is observable — the `0 / 0 = NaN` case in the
  keyword-similarity division — is modelled explicitly with `Option ℚ`
  (`none` = NaN), via `jsDiv`.
* Strings are Lean `String`s; the character predicates model the ASCII
  behaviour of the JavaScript regexes `\w` (`[A-Za-z0-9_]`) and `\s`.
* The Prisma store is modelled as explicit lists of records inside a `DB`
  structure; each route handler is a pure function `DB → result × DB`.
* The external generation backend is a parameter `backend : Option String`:
  `some t` models a successful backend reply with text `t`, `none` models
  any backend failure (network error, non-ok status), which the code
  handles by falling back to the deterministic templates.
-/

namespace Ishtrak

/-! ## Keyword extraction (`extractKeywords` in `retrieve/route.ts` and the
resolution-generation route; both copies are textually identical). -/

/-- Model of the JS `\w` character class `[A-Za-z0-9_]`. -/
def isWordChar (c : Char) : Bool :=
  c.isAlphanum || c == '_'

/-- One maximal-run whitespace splitter step: `acc` holds the (reversed)
current token.  `text.split(/\s+/)` in JS can additionally emit one empty
leading token, which the caller's `length > 3` filter always removes, so
the splitter here drops empty runs directly; the resulting keyword list is
identical. -/
def splitWSAux : List Char → List Char → List (List Char)
  | [], acc => if acc.isEmpty then [] else [acc.reverse]
  | c :: cs, acc =>
    if c.isWhitespace then
      (if acc.isEmpty then [] else [acc.reverse]) ++ splitWSAux cs []
    else
      splitWSAux cs (c :: acc)

/-- Split a character list into maximal runs of non-whitespace characters
(model of `split(/\s+/)` followed by discarding empty tokens). -/
def splitWS (cs : List Char) : List (List Char) :=
  splitWSAux cs []

/-- Deduplication keeping the first occurrence, the semantics of
`[...new Set(words)]`. -/
def dedupFirstAux (seen : List (List Char)) : List (List Char) → List (List Char)
  | [] => []
  | w :: ws =>
    if seen.contains w then dedupFirstAux seen ws
    else w :: dedupFirstAux (w :: seen) ws

/-- JS `[...new Set(words)]`: drop duplicates, keeping first occurrences. -/
def dedupFirst (ws : List (List Char)) : List (List Char) :=
  dedupFirstAux [] ws

/-- The stop-word list of `extractKeywords`, verbatim from the source
(including its duplicated entries). -/
def stopWords : List (List Char) :=
  (["this", "that", "with", "from", "they", "have", "been", "said", "each",
    "which", "their", "time", "will", "about", "after", "many", "only",
    "some", "also", "what", "when", "make", "like", "into", "than", "call",
    "come", "could", "first", "work", "down", "may", "should", "through",
    "between", "must", "such", "under", "well", "where", "much", "before",
    "right", "too", "any", "same", "how", "look", "little", "world", "very",
    "still", "hand", "old", "life", "tell", "here", "show", "even", "back",
    "think", "year", "give", "take", "just", "good", "most", "know", "over",
    "great", "long", "find", "where", "much", "before", "right", "too",
    "any", "same"]).map String.toList

/-- `extractKeywords(text)`: lower-case, strip non-word non-space
characters (`replace(/[^\w\s]/g, '')`), split on whitespace, drop tokens
of length ≤ 3, drop stop-words, deduplicate preserving order.
`Char.toLower` is exactly the ASCII lowering the JS `toLowerCase`
performs on the characters that survive the `\w` filter. -/
def extractKeywords (text : List Char) : List (List Char) :=
  let cleaned := (text.map Char.toLower).filter (fun c => isWordChar c || c.isWhitespace)
  let toks := splitWS cleaned
  dedupFirst ((toks.filter (fun w => 3 < w.length)).filter
    (fun w => !stopWords.contains w))

/-- JS `array.join(" ")`. -/
def joinSpace : List (List Char) → List Char
  | [] => []
  | [w] => w
  | w :: ws => w ++ ' ' :: joinSpace ws

example : extractKeywords "Database connection timeout!".toList =
    ["database", "connection", "timeout"].map String.toList := by decide

example : extractKeywords "the a of".toList = [] := by decide

/-! ### Facts about the extraction pipeline, used for the idempotence claim. -/

theorem char_toNat_ofNat (n : ℕ) (h : n < 55296) : (Char.ofNat n).toNat = n := by
  have hv : n.isValidChar := Or.inl h
  rw [Char.ofNat, dif_pos hv]
  rfl

theorem toNat_toLower (c : Char) :
    (Char.toLower c).toNat =
      if c.toNat ≥ 65 ∧ c.toNat ≤ 90 then c.toNat + 32 else c.toNat := by
  show (if c.toNat ≥ 65 ∧ c.toNat ≤ 90 then Char.ofNat (c.toNat + 32) else c).toNat = _
  split_ifs with h
  · exact char_toNat_ofNat _ (by omega)
  · rfl

theorem toLower_toLower (c : Char) :
    Char.toLower (Char.toLower c) = Char.toLower c := by
  have h1 := toNat_toLower c
  show (if (Char.toLower c).toNat ≥ 65 ∧ (Char.toLower c).toNat ≤ 90 then
      Char.ofNat ((Char.toLower c).toNat + 32) else Char.toLower c) = Char.toLower c
  rw [if_neg]
  by_cases h : c.toNat ≥ 65 ∧ c.toNat ≤ 90
  · rw [if_pos h] at h1
    omega
  · rw [if_neg h] at h1
    omega

theorem splitWSAux_mem (l : List Char) : ∀ (acc w : List Char),
    w ∈ splitWSAux l acc → ∀ c ∈ w,
      (c ∈ l ∧ c.isWhitespace = false) ∨ c ∈ acc := by
  induction l with
  | nil =>
    intro acc w hw c hc
    rw [splitWSAux] at hw
    split_ifs at hw with h
    · simp at hw
    · simp only [List.mem_singleton] at hw
      subst hw
      exact Or.inr (List.mem_reverse.mp hc)
  | cons x xs ih =>
    intro acc w hw c hc
    rw [splitWSAux] at hw
    by_cases hx : x.isWhitespace = true
    · rw [if_pos hx] at hw
      rcases List.mem_append.mp hw with hw1 | hw2
      · by_cases hacc : acc.isEmpty = true
        · rw [if_pos hacc] at hw1
          simp at hw1
        · rw [if_neg hacc] at hw1
          simp only [List.mem_singleton] at hw1
          subst hw1
          exact Or.inr (List.mem_reverse.mp hc)
      · rcases ih [] w hw2 c hc with ⟨h1, h2⟩ | h3
        · exact Or.inl ⟨List.mem_cons_of_mem _ h1, h2⟩
        · simp at h3
    · rw [if_neg hx] at hw
      rcases ih (x :: acc) w hw c hc with ⟨h1, h2⟩ | h3
      · exact Or.inl ⟨List.mem_cons_of_mem _ h1, h2⟩
      · rcases List.mem_cons.mp h3 with rfl | h4
        · exact Or.inl ⟨List.mem_cons_self _ _, by simpa using hx⟩
        · exact Or.inr h4

theorem splitWS_mem {w l : List Char} (hw : w ∈ splitWS l) :
    ∀ c ∈ w, c ∈ l ∧ c.isWhitespace = false := by
  intro c hc
  rcases splitWSAux_mem l [] w hw c hc with h | h
  · exact h
  · simp at h

theorem splitWSAux_append (w : List Char) (rest acc : List Char)
    (hw : ∀ c ∈ w, c.isWhitespace = false) :
    splitWSAux (w ++ rest) acc = splitWSAux rest (w.reverse ++ acc) := by
  induction w generalizing acc with
  | nil => simp
  | cons c cs ih =>
    have hc : c.isWhitespace = false := hw c (List.mem_cons_self _ _)
    show splitWSAux (c :: (cs ++ rest)) acc = _
    rw [splitWSAux, if_neg (by simp [hc])]
    rw [ih (c :: acc) (fun d hd => hw d (List.mem_cons_of_mem _ hd))]
    simp [List.append_assoc]

theorem splitWSAux_space (rest acc : List Char) :
    splitWSAux (' ' :: rest) acc =
      (if acc.isEmpty then [] else [acc.reverse]) ++ splitWSAux rest [] := by
  rw [splitWSAux, if_pos (by decide)]

theorem splitWS_joinSpace (ws : List (List Char))
    (h : ∀ w ∈ ws, w ≠ [] ∧ ∀ c ∈ w, c.isWhitespace = false) :
    splitWS (joinSpace ws) = ws := by
  induction ws with
  | nil => rfl
  | cons w vs ih =>
    have hw := h w (List.mem_cons_self _ _)
    have hne : (w.reverse ++ ([] : List Char)).isEmpty = false := by
      cases w with
      | nil => exact absurd rfl hw.1
      | cons a as => simp
    cases vs with
    | nil =>
      show splitWSAux (joinSpace [w]) [] = [w]
      have : joinSpace [w] = w ++ [] := by simp [joinSpace]
      rw [this, splitWSAux_append w [] [] hw.2, splitWSAux, if_neg (by simp [hne] at hne ⊢; exact hne)]
      simp
    | cons v vs' =>
      show splitWSAux (w ++ ' ' :: joinSpace (v :: vs')) [] = w :: v :: vs'
      rw [splitWSAux_append w _ [] hw.2, splitWSAux_space, if_neg (by simp [hne] at hne ⊢; exact hne)]
      simp only [List.append_nil, List.reverse_reverse, List.singleton_append]
      exact congrArg _ (ih (fun u hu => h u (List.mem_cons_of_mem _ hu)))

theorem dedupFirstAux_subset (l : List (List Char)) : ∀ (seen : List (List Char)),
    ∀ w ∈ dedupFirstAux seen l, w ∈ l := by
  induction l with
  | nil =>
    intro seen w hw
    simp [dedupFirstAux] at hw
  | cons x xs ih =>
    intro seen w hw
    rw [dedupFirstAux] at hw
    split_ifs at hw with h
    · exact List.mem_cons_of_mem _ (ih seen w hw)
    · rcases List.mem_cons.mp hw with rfl | h2
      · exact List.mem_cons_self _ _
      · exact List.mem_cons_of_mem _ (ih _ w h2)

theorem dedupFirstAux_not_mem_seen (l : List (List Char)) : ∀ (seen : List (List Char)),
    ∀ w ∈ dedupFirstAux seen l, seen.contains w = false := by
  induction l with
  | nil =>
    intro seen w hw
    simp [dedupFirstAux] at hw
  | cons x xs ih =>
    intro seen w hw
    rw [dedupFirstAux] at hw
    split_ifs at hw with h
    · exact ih seen w hw
    · rcases List.mem_cons.mp hw with rfl | h2
      · exact Bool.not_eq_true _ ▸ h
      · have h3 := ih (x :: seen) w h2
        simp only [List.contains_cons, Bool.or_eq_false_iff] at h3
        exact h3.2

theorem dedupFirstAux_nodup (l : List (List Char)) : ∀ (seen : List (List Char)),
    (dedupFirstAux seen l).Nodup := by
  induction l with
  | nil =>
    intro seen
    simp [dedupFirstAux]
  | cons x xs ih =>
    intro seen
    rw [dedupFirstAux]
    split_ifs with h
    · exact ih seen
    · refine List.nodup_cons.mpr ⟨?_, ih (x :: seen)⟩
      intro hx
      have h3 := dedupFirstAux_not_mem_seen xs (x :: seen) x hx
      simp at h3

theorem dedupFirstAux_eq_self (l : List (List Char)) (hl : l.Nodup) :
    ∀ (seen : List (List Char)), (∀ w ∈ l, seen.contains w = false) →
      dedupFirstAux seen l = l := by
  induction l with
  | nil =>
    intro seen _
    rfl
  | cons x xs ih =>
    intro seen hs
    rw [dedupFirstAux, if_neg (by rw [hs x (List.mem_cons_self _ _)]; exact Bool.false_ne_true)]
    refine congrArg _ (ih (List.nodup_cons.mp hl).2 (x :: seen) ?_)
    intro w hw
    simp only [List.contains_cons, Bool.or_eq_false_iff]
    refine ⟨?_, hs w (List.mem_cons_of_mem _ hw)⟩
    simp only [beq_eq_false_iff_ne]
    intro hwx
    exact (List.nodup_cons.mp hl).1 (hwx ▸ hw)

theorem joinSpace_mem (ws : List (List Char)) :
    ∀ c ∈ joinSpace ws, c = ' ' ∨ ∃ w ∈ ws, c ∈ w := by
  induction ws with
  | nil =>
    intro c hc
    simp [joinSpace] at hc
  | cons w vs ih =>
    cases vs with
    | nil =>
      intro c hc
      exact Or.inr ⟨w, List.mem_cons_self _ _, hc⟩
    | cons v vs' =>
      intro c hc
      rcases List.mem_append.mp hc with h1 | h2
      · exact Or.inr ⟨w, List.mem_cons_self _ _, h1⟩
      · rcases List.mem_cons.mp h2 with rfl | h3
        · exact Or.inl rfl
        · rcases ih c h3 with h4 | ⟨u, hu, hcu⟩
          · exact Or.inl h4
          · exact Or.inr ⟨u, List.mem_cons_of_mem _ hu, hcu⟩

/-- Every keyword produced by `extractKeywords` is longer than 3 characters,
is not a stop-word, and consists of whitespace-free word characters already
in lower case. -/
theorem extractKeywords_props (text : List Char) :
    ∀ w ∈ extractKeywords text,
      3 < w.length ∧ stopWords.contains w = false ∧
        ∀ c ∈ w, (isWordChar c || c.isWhitespace) = true ∧
          c.isWhitespace = false ∧ Char.toLower c = c := by
  intro w hw
  simp only [extractKeywords] at hw
  have hw1 := dedupFirstAux_subset _ _ w hw
  have hw2 := List.mem_filter.mp hw1
  have hw3 := List.mem_filter.mp hw2.1
  refine ⟨by simpa using hw3.2, by simpa using hw2.2, ?_⟩
  intro c hc
  have hc1 := splitWS_mem hw3.1 c hc
  have hc2 := List.mem_filter.mp hc1.1
  rcases List.mem_map.mp hc2.1 with ⟨c0, _, rfl⟩
  exact ⟨hc2.2, hc1.2, toLower_toLower c0⟩

theorem extractKeywords_nodup (text : List Char) :
    (extractKeywords text).Nodup :=
  dedupFirstAux_nodup _ _

/-- C9: keyword extraction is idempotent — re-extracting from the
space-joined keyword list of a first extraction returns exactly the same
keyword list (so in particular the same keyword set): every produced
keyword is already lower-case, longer than 3 characters, free of non-word
characters and not a stop-word, so the second pass removes and reintroduces
nothing. -/
theorem extractKeywords_idempotent (text : List Char) :
    extractKeywords (joinSpace (extractKeywords text)) = extractKeywords text := by
  set ks := extractKeywords text with hks
  have props : ∀ w ∈ ks, 3 < w.length ∧ stopWords.contains w = false ∧
      ∀ c ∈ w, (isWordChar c || c.isWhitespace) = true ∧
        c.isWhitespace = false ∧ Char.toLower c = c := extractKeywords_props text
  have hchars : ∀ c ∈ joinSpace ks,
      Char.toLower c = c ∧ (isWordChar c || c.isWhitespace) = true := by
    intro c hc
    rcases joinSpace_mem _ c hc with rfl | ⟨w, hw, hcw⟩
    · exact ⟨by decide, by decide⟩
    · have h := (props w hw).2.2 c hcw
      exact ⟨h.2.2, h.1⟩
  have h1 : (joinSpace ks).map Char.toLower = joinSpace ks :=
    (List.map_congr_left (fun c hc => (hchars c hc).1)).trans (List.map_id _)
  have h2 : (joinSpace ks).filter
      (fun c => isWordChar c || c.isWhitespace) = joinSpace ks :=
    List.filter_eq_self.mpr (fun c hc => (hchars c hc).2)
  have h3 : splitWS (joinSpace ks) = ks :=
    splitWS_joinSpace _ (fun w hw =>
      ⟨List.ne_nil_of_length_pos (by have := (props w hw).1; omega),
       fun c hc => ((props w hw).2.2 c hc).2.1⟩)
  have h4 : List.filter (fun w => decide (3 < w.length)) ks = ks :=
    List.filter_eq_self.mpr (fun w hw => by simpa using (props w hw).1)
  have h5 : List.filter (fun w => !stopWords.contains w) ks = ks :=
    List.filter_eq_self.mpr (fun w hw => by
      show (!stopWords.contains w) = true
      rw [(props w hw).2.1]
      rfl)
  simp only [extractKeywords]
  rw [h1, h2, h3, h4, h5]
  exact dedupFirstAux_eq_self _ (hks ▸ extractKeywords_nodup text) [] (fun _ _ => rfl)

/-! ## Data model -/

/-- A row of the `knowledgeBase` table (spec: KnowledgeEntry). -/
structure KnowledgeEntry where
  id : ℕ
  content : String
  contentType : String
  averageRating : ℚ
  usageCount : ℕ
deriving DecidableEq, Repr

/-- A row of the `issue` table; only the fields the AI routes read or
write are modelled. -/
structure Issue where
  id : ℕ
  title : String
  description : String
  category : String
  severity : String
  environment : String
  status : String
deriving DecidableEq, Repr

/-- A row of the `aiResolution` table (spec: GeneratedResolution).
`generatedAt` is an abstract monotone timestamp. -/
structure AiResolution where
  id : ℕ
  issueId : ℕ
  resolutionText : String
  userRating : Option ℚ
  userFeedback : Option String
  generatedAt : ℕ
deriving DecidableEq, Repr

/-- A row of the `aiSop` table (spec: GeneratedSOP). -/
structure AiSop where
  id : ℕ
  issueId : ℕ
  sopText : String
deriving DecidableEq, Repr

/-- A row of the `aiRating` analytics table. -/
structure AiRating where
  userId : String
  targetType : String
  targetId : ℕ
  rating : ℚ
  feedback : Option String
deriving DecidableEq, Repr

/-- The relational store: the four tables the AI routes touch. -/
structure DB where
  issues : List Issue
  resolutions : List AiResolution
  sops : List AiSop
  kb : List KnowledgeEntry
  aiRatings : List AiRating
deriving DecidableEq, Repr

/-- Response of a route: either an HTTP error (status code and message) or
a success payload (the generated / returned text). -/
inductive ApiResult where
  | ok : String → ApiResult
  | err : ℕ → String → ApiResult
deriving DecidableEq, Repr

/-- Whether a response is an error response. -/
def ApiResult.isErr : ApiResult → Bool
  | .ok _ => false
  | .err _ _ => true

/-! ## Relevance scorer (`retrieve/route.ts` lines 58–76 and the identical
computation in the resolution route) -/

/-- JS division with the IEEE zero-denominator escape: `0/0` is `NaN` and
`x/0` is `±Infinity`; both are modelled as `none` (no finite rational
value).  For a nonzero denominator the result is the exact rational. -/
def jsDiv (a b : ℚ) : Option ℚ :=
  if b = 0 then none else some (a / b)

/-- JS `>` on a possibly-NaN left operand: `NaN > x` is `false`. -/
def jsGt (a : Option ℚ) (b : ℚ) : Bool :=
  match a with
  | none => false
  | some x => decide (b < x)

/-- JS `<=` comparison used by the score sort (`b.similarityScore -
a.similarityScore`): `a` may come before `b` when `b.score ≤ a.score`.
Comparisons involving NaN are `false`. -/
def jsScoreGe (a b : Option ℚ) : Bool :=
  match a, b with
  | some x, some y => decide (y ≤ x)
  | _, _ => false

/-- A `RetrievalResult`: a knowledge entry decorated with its
`similarityScore` (possibly NaN, modelled `none`) and `matchedKeywords`. -/
structure ScoredEntry where
  entry : KnowledgeEntry
  similarityScore : Option ℚ
  matchedKeywords : List (List Char)
deriving DecidableEq, Repr

/-- The scorer body (lines 58–76 of `retrieve/route.ts`):
`keywordSimilarity = |common| / max(|query|, |content|)` (NaN when both
keyword sets are empty), `ratingBoost = averageRating / 5`, `usageBoost =
min(usageCount / 10, 1)`, `finalScore = 0.6*similarity + 0.3*ratingBoost +
0.1*usageBoost`; NaN propagates through the sum. -/
def scoreEntry (queryKeywords : List (List Char)) (entry : KnowledgeEntry) :
    ScoredEntry :=
  let contentKeywords := extractKeywords entry.content.toList
  let commonKeywords := queryKeywords.filter (fun k => contentKeywords.contains k)
  let keywordSimilarity :=
    jsDiv (commonKeywords.length : ℚ)
      ((max queryKeywords.length contentKeywords.length : ℕ) : ℚ)
  let ratingBoost := entry.averageRating / 5
  let usageBoost := min ((entry.usageCount : ℚ) / 10) 1
  { entry := entry
    similarityScore :=
      keywordSimilarity.map (fun s => s * 0.6 + ratingBoost * 0.3 + usageBoost * 0.1)
    matchedKeywords := commonKeywords }

/-- Comparator of the candidate fetch: `orderBy averageRating desc,
usageCount desc`. -/
def byRatingUsageDesc (a b : KnowledgeEntry) : Bool :=
  decide (b.averageRating < a.averageRating) ||
    (decide (a.averageRating = b.averageRating) && decide (b.usageCount ≤ a.usageCount))

/-- The retrieval pipeline of `retrieve/route.ts` (POST): fetch candidates
of the requested `contentType` with `averageRating ≥ 3.5` ordered by
rating then usage, capped at 50; score each; keep entries with
`finalScore > 0.1`; stable-sort by score descending; truncate to `limit`. -/
def retrieve (kb : List KnowledgeEntry) (query : String) (contentType : String)
    (limit : ℕ) : List ScoredEntry :=
  let knowledgeBase :=
    (((kb.filter (fun e => e.contentType == contentType &&
        decide ((3.5 : ℚ) ≤ e.averageRating))).mergeSort byRatingUsageDesc).take 50)
  let queryKeywords := extractKeywords query.toList
  let scoredEntries := knowledgeBase.map (scoreEntry queryKeywords)
  (((scoredEntries.filter (fun s => jsGt s.similarityScore 0.1)).mergeSort
    (fun a b => jsScoreGe a.similarityScore b.similarityScore)).take limit)

/-- The retrieval helper of the resolution route (`retrieveRelevantContent`):
same pipeline but fixed to `contentType = 'resolution'`, a candidate
window of 20 and a result cap of 3. -/
def retrieveRelevantContent (kb : List KnowledgeEntry) (query : String) :
    List ScoredEntry :=
  let knowledgeBase :=
    (((kb.filter (fun e => e.contentType == "resolution" &&
        decide ((3.5 : ℚ) ≤ e.averageRating))).mergeSort byRatingUsageDesc).take 20)
  let queryKeywords := extractKeywords query.toList
  let scoredEntries := knowledgeBase.map (scoreEntry queryKeywords)
  (((scoredEntries.filter (fun s => jsGt s.similarityScore 0.1)).mergeSort
    (fun a b => jsScoreGe a.similarityScore b.similarityScore)).take 3)

/-- The usage-count side effect of retrieval: each returned entry's row is
incremented by 1 (`db.knowledgeBase.update … usageCount: { increment: 1 }`). -/
def incUsage (kb : List KnowledgeEntry) (ids : List ℕ) : List KnowledgeEntry :=
  kb.map (fun e => if ids.contains e.id then { e with usageCount := e.usageCount + 1 } else e)

/-! ## Knowledge promoter (rating route, `[id]/rate` handler) -/

/-- Fresh primary key for an insert into the knowledge base. -/
def freshId (kb : List KnowledgeEntry) : ℕ :=
  (kb.map (fun e => e.id)).foldr max 0 + 1

/-- The knowledge-base effect of a rating event (rating route lines 30–59):
for `rating ≥ 4`, look up an entry with exactly matching `content` and
`contentType = 'resolution'`; update it with `usageCount + 1` and the
weighted running average, or create a fresh entry with
`averageRating = rating, usageCount = 1`.  For `rating < 4` the table is
untouched. -/
def promoteRating (kb : List KnowledgeEntry) (content : String) (r : ℚ) :
    List KnowledgeEntry :=
  if 4 ≤ r then
    match kb.find? (fun e => e.content == content && e.contentType == "resolution") with
    | some existing =>
      kb.map (fun e =>
        if e.id == existing.id then
          { e with
            usageCount := existing.usageCount + 1
            averageRating :=
              (existing.averageRating * existing.usageCount + r) / (existing.usageCount + 1) }
        else e)
    | none =>
      kb ++ [{ id := freshId kb, content := content, contentType := "resolution",
               averageRating := r, usageCount := 1 }]
  else kb

/-- The rating route (`POST /api/ai/resolutions/[id]/rate`): validate the
rating, store it on the resolution, run the knowledge promoter, and append
an analytics rating record.  A missing resolution makes the Prisma update
throw, caught as a 500 with no mutation. -/
def ratePOST (db : DB) (rid : ℕ) (r : ℚ) (fb : Option String) : ApiResult × DB :=
  if r < 1 ∨ 5 < r then (.err 400 "Rating must be between 1 and 5", db)
  else
    match db.resolutions.find? (fun x => x.id == rid) with
    | none => (.err 500 "Failed to rate resolution", db)
    | some res =>
      let updated := { res with userRating := some r, userFeedback := fb }
      let newResolutions := db.resolutions.map (fun x =>
        if x.id == rid then { x with userRating := some r, userFeedback := fb } else x)
      let ratingRecord : AiRating :=
        { userId := "system-user", targetType := "resolution",
          targetId := rid, rating := r, feedback := fb }
      let db1 := { db with resolutions := newResolutions }
      let db2 := { db1 with kb := promoteRating db1.kb updated.resolutionText r }
      let db3 := { db2 with aiRatings := db2.aiRatings ++ [ratingRecord] }
      (.ok "Rating submitted successfully", db3)

/-- The retrieval route (`POST /api/ai/retrieve`): reject an empty query
(falsy in JS), otherwise compute the ranked entries and increment each
returned entry's `usageCount`.  The read-only related-issues part of the
response is not modelled; it touches no table. -/
def retrievePOST (db : DB) (query : String) (contentType : String) (limit : ℕ) :
    ApiResult × DB :=
  if query == "" then (.err 400 "Query is required", db)
  else
    let relevantEntries := retrieve db.kb query contentType limit
    (.ok "retrieved",
      { db with kb := incUsage db.kb (relevantEntries.map (fun s => s.entry.id)) })

example :
    promoteRating [] "fix" 4 =
      [{ id := 1, content := "fix", contentType := "resolution",
         averageRating := 4, usageCount := 1 }] := by
  norm_num [promoteRating, freshId, List.find?]

example :
    promoteRating [{ id := 1, content := "fix", contentType := "resolution",
                     averageRating := 4, usageCount := 1 }] "fix" 5 =
      [{ id := 1, content := "fix", contentType := "resolution",
         averageRating := 9/2, usageCount := 2 }] := by
  norm_num [promoteRating, List.find?]

/-! ## Interleavings of retrieval and rating (claim C3) -/

/-- States of the KnowledgeEntry table reachable from the empty table by
any interleaving of rating events (with a validated rating in [1,5]) and
retrieval calls (each incrementing the usage counters of exactly the
entries it returns). -/
inductive Reachable : List KnowledgeEntry → Prop
  | empty : Reachable []
  | rate {kb} (content : String) (r : ℚ) (h1 : 1 ≤ r) (h5 : r ≤ 5) :
      Reachable kb → Reachable (promoteRating kb content r)
  | retrieval {kb} (query contentType : String) (limit : ℕ) :
      Reachable kb →
      Reachable (incUsage kb ((retrieve kb query contentType limit).map (fun s => s.entry.id)))

/-- The weighted running average of values in [1,5] stays in [1,5]. -/
theorem runningAverage_bounds (a r : ℚ) (n : ℕ) (ha1 : 1 ≤ a) (ha5 : a ≤ 5)
    (hr1 : 1 ≤ r) (hr5 : r ≤ 5) :
    1 ≤ (a * n + r) / (n + 1) ∧ (a * n + r) / (n + 1) ≤ 5 := by
  have hpos : (0:ℚ) < (n:ℚ) + 1 := by positivity
  have hn : (0:ℚ) ≤ (n:ℚ) := by positivity
  constructor
  · rw [le_div_iff₀ hpos]
    nlinarith [mul_le_mul_of_nonneg_right ha1 hn]
  · rw [div_le_iff₀ hpos]
    nlinarith [mul_le_mul_of_nonneg_right ha5 hn]

/-- Every rating event keeps every entry's `averageRating` inside [1,5]. -/
theorem promoteRating_bounds {kb : List KnowledgeEntry} (content : String) (r : ℚ)
    (h1 : 1 ≤ r) (h5 : r ≤ 5)
    (ih : ∀ e ∈ kb, 1 ≤ e.averageRating ∧ e.averageRating ≤ 5) :
    ∀ e ∈ promoteRating kb content r, 1 ≤ e.averageRating ∧ e.averageRating ≤ 5 := by
  intro e he
  rw [promoteRating] at he
  split_ifs at he with h4
  · cases hfind : List.find? (fun e => e.content == content && e.contentType == "resolution") kb with
    | some existing =>
      rw [hfind] at he
      rcases List.mem_map.mp he with ⟨x, hx, rfl⟩
      have hex : existing ∈ kb := List.mem_of_find?_eq_some hfind
      split_ifs with hid
      · exact runningAverage_bounds existing.averageRating r existing.usageCount
          (ih existing hex).1 (ih existing hex).2 h1 h5
      · exact ih x hx
    | none =>
      rw [hfind] at he
      rcases List.mem_append.mp he with hx | hx
      · exact ih e hx
      · simp only [List.mem_singleton] at hx
        subst hx
        exact ⟨h1, h5⟩
  · exact ih e he

/-- Incrementing usage counters never touches `averageRating`. -/
theorem incUsage_bounds {kb : List KnowledgeEntry} (ids : List ℕ)
    (ih : ∀ e ∈ kb, 1 ≤ e.averageRating ∧ e.averageRating ≤ 5) :
    ∀ e ∈ incUsage kb ids, 1 ≤ e.averageRating ∧ e.averageRating ≤ 5 := by
  intro e he
  rcases List.mem_map.mp he with ⟨x, hx, rfl⟩
  split_ifs <;> exact ih x hx

/-! ## Fallback template generation (resolution route lines 102–297) -/

/-- The `infrastructure` entry of `baseTemplates`. -/
def resTemplateInfrastructure (issue : Issue) : String :=
  "Infrastructure Issue Resolution Plan for \"" ++ issue.title ++ "\":

1. INITIAL ASSESSMENT
   - Verify current system status and impact scope
   - Check monitoring dashboards for anomaly patterns
   - Document affected services and user impact

2. IMMEDIATE ACTIONS
   - Implement temporary workaround if available
   - Communicate status to stakeholders
   - Begin root cause analysis

3. ROOT CAUSE ANALYSIS
   - Review system logs for error patterns
   - Check recent changes or deployments
   - Analyze performance metrics leading to issue

4. RESOLUTION STEPS
   - Apply the identified fix based on root cause
   - Test the resolution in staging environment
   - Deploy fix to production with monitoring

5. VERIFICATION
   - Confirm service restoration
   - Monitor system stability for 2 hours
   - Validate with affected users

6. PREVENTION
   - Update monitoring to catch similar issues early
   - Document lessons learned
   - Consider infrastructure improvements if recurring issue"

/-- The `application` entry of `baseTemplates`. -/
def resTemplateApplication (issue : Issue) : String :=
  "Application Issue Resolution for \"" ++ issue.title ++ "\":

1. ISSUE REPRODUCTION
   - Reproduce the issue in development environment
   - Identify the exact steps to trigger the problem
   - Document expected vs actual behavior

2. CODE ANALYSIS
   - Review recent code changes in affected modules
   - Check error logs and stack traces
   - Identify the specific component causing the issue

3. DEBUGGING PROCESS
   - Set up debugging environment
   - Add logging to track execution flow
   - Isolate the problematic code section

4. FIX IMPLEMENTATION
   - Develop a targeted fix for the root cause
   - Write unit tests to verify the fix
   - Test the fix in staging environment

5. DEPLOYMENT
   - Deploy fix to production with feature flag if possible
   - Monitor application performance closely
   - Roll back if unexpected issues arise

6. POST-RESOLUTION
   - Update documentation if needed
   - Add regression tests
   - Review code review process to prevent similar issues"

/-- The `database` entry of `baseTemplates`. -/
def resTemplateDatabase (issue : Issue) : String :=
  "Database Issue Resolution for \"" ++ issue.title ++ "\":

1. IMPACT ASSESSMENT
   - Identify affected databases and tables
   - Check data integrity and consistency
   - Estimate data loss or corruption scope

2. IMMEDIATE CONTAINMENT
   - Switch to read-only mode if data corruption suspected
   - Promote standby database if available
   - Implement application-level caching to reduce load

3. ROOT CAUSE INVESTIGATION
   - Review database error logs
   - Check query performance metrics
   - Analyze recent schema changes or migrations

4. RECOVERY PROCEDURES
   - Restore from recent backup if necessary
   - Reapply transactions from backup point to current time
   - Validate data integrity post-restoration

5. PERFORMANCE OPTIMIZATION
   - Review and optimize slow queries
   - Update database statistics
   - Consider indexing improvements

6. PREVENTIVE MEASURES
   - Implement better monitoring and alerting
   - Schedule regular database maintenance
   - Review backup and recovery procedures"

/-- The `network` entry of `baseTemplates`. -/
def resTemplateNetwork (issue : Issue) : String :=
  "Network Issue Resolution for \"" ++ issue.title ++ "\":

1. NETWORK ASSESSMENT
   - Identify affected network segments and services
   - Test connectivity between critical nodes
   - Check network device status and logs

2. TROUBLESHOOTING STEPS
   - Ping critical network endpoints
   - Trace routes to identify bottlenecks
   - Check firewall rules and ACL configurations

3. CONFIGURATION REVIEW
   - Verify recent network configuration changes
   - Check DNS resolution for affected services
   - Review load balancer configurations

4. RESOLUTION IMPLEMENTATION
   - Apply necessary configuration fixes
   - Restart network services if required
   - Update routing tables if needed

5. VALIDATION
   - Test end-to-end connectivity
   - Verify service accessibility
   - Monitor network performance metrics

6. DOCUMENTATION
   - Document the root cause and resolution
   - Update network diagrams if changes made
   - Review monitoring and alerting setup"

/-- The `security` entry of `baseTemplates`. -/
def resTemplateSecurity (issue : Issue) : String :=
  "Security Issue Resolution for \"" ++ issue.title ++ "\":

1. SECURITY ASSESSMENT
   - Determine the scope and impact of the security issue
   - Identify affected systems and data
   - Assess potential data exposure or system compromise

2. IMMEDIATE CONTAINMENT
   - Isolate affected systems from the network
   - Change credentials for potentially compromised accounts
   - Block malicious IP addresses or traffic patterns

3. FORENSIC ANALYSIS
   - Preserve system logs and evidence
   - Analyze attack vectors and entry points
   - Determine the timeline of the security breach

4. REMEDIATION
   - Patch vulnerabilities that were exploited
   - Clean or rebuild compromised systems
   - Implement additional security controls

5. RECOVERY
   - Restore services from clean backups
   - Verify system integrity and security
   - Monitor for any suspicious activity

6. PREVENTION
   - Conduct security audit and penetration testing
   - Update security policies and procedures
   - Provide security awareness training if needed"

/-- The category dispatch of `baseTemplates[issue.category]` (a JS object
property access: `none` models `undefined` for an unrecognized category).
Each category maps to a one-element array of templates, as in the source. -/
def resolutionTemplatesFor (issue : Issue) : Option (List String) :=
  if issue.category = "infrastructure" then some [resTemplateInfrastructure issue]
  else if issue.category = "application" then some [resTemplateApplication issue]
  else if issue.category = "database" then some [resTemplateDatabase issue]
  else if issue.category = "network" then some [resTemplateNetwork issue]
  else if issue.category = "security" then some [resTemplateSecurity issue]
  else none

/-- The "LEARNED FROM SIMILAR ISSUES" enhancement appended to the fallback
template when the retrieved list is non-empty (lines 275–294). -/
def ragSection (relevantContent : List ScoredEntry) : String :=
  let relevantText := String.intercalate "\n\n" (relevantContent.map (fun entry =>
    "Similar Issue Resolution (Rating: " ++ toString entry.entry.averageRating ++
      "/5):\n" ++ entry.entry.content.take 500 ++ "..."))
  "\n\n7. LEARNED FROM SIMILAR ISSUES\n   Based on analysis of " ++
    toString relevantContent.length ++ " similar resolved issues:\n\n" ++
    relevantText ++ "\n\n   Key patterns identified:\n   " ++
    String.intercalate "\n   " (relevantContent.map (fun entry =>
      "- " ++ String.intercalate ", " ((entry.matchedKeywords.take 3).map String.mk))) ++
    "\n\n8. ENHANCED PREVENTION\n   - Apply lessons learned from similar incidents\n   - Implement proactive monitoring for identified patterns\n   - Update runbooks with successful resolution strategies"

/-- `generateResolutionTemplate(issue, relevantContent)`: pick the category
template list (defaulting to infrastructure), draw one element with
`Math.floor(Math.random() * length)` (modelled by the random draw
`rand ∈ [0,1)`), and append the RAG section when retrieved content is
available. -/
def generateResolutionTemplate (issue : Issue) (relevantContent : List ScoredEntry)
    (rand : ℚ) : String :=
  let categoryTemplates := (resolutionTemplatesFor issue).getD [resTemplateInfrastructure issue]
  let baseTemplate := categoryTemplates.getD (⌊rand * categoryTemplates.length⌋).toNat ""
  if 0 < relevantContent.length then baseTemplate ++ ragSection relevantContent
  else baseTemplate

/-! ## Fallback SOP templates (`generate-sop/route.ts` lines 33–260) -/

/-- The `infrastructure` entry of the SOP `templates` object. -/
def sopTemplateInfrastructure (issue : Issue) : String :=
  "STANDARD OPERATING PROCEDURE: INFRASTRUCTURE INCIDENT RESPONSE

TITLE: " ++ issue.title ++ "
CATEGORY: " ++ issue.category ++ "
SEVERITY: " ++ issue.severity ++ "
ENVIRONMENT: " ++ issue.environment ++ "

PURPOSE:
This SOP provides a standardized approach for resolving infrastructure-related issues similar to \"" ++ issue.title ++ "\".

SCOPE:
This procedure applies to all infrastructure components including servers, networks, and cloud resources in " ++ issue.environment ++ " environment.

PRECONDITIONS:
- Access to infrastructure monitoring tools
- Administrative privileges on affected systems
- Backup and recovery procedures documented
- Communication channels established with stakeholders

STEP-BY-STEP PROCEDURE:

1. INCIDENT DETECTION AND ASSESSMENT
   - Monitor infrastructure dashboards for anomaly detection
   - Verify system status and impact scope
   - Document affected services and user impact
   - Estimate recovery time objective (RTO)

2. IMMEDIATE RESPONSE ACTIONS
   - Implement temporary workaround if available
   - Activate incident response team if severity is high/critical
   - Communicate status to all stakeholders
   - Begin root cause analysis

3. ROOT CAUSE ANALYSIS
   - Review system logs for error patterns
   - Check recent changes or deployments
   - Analyze performance metrics leading to issue
   - Document findings in incident report

4. RESOLUTION IMPLEMENTATION
   - Apply the identified fix based on root cause
   - Test the resolution in staging environment
   - Deploy fix to production with monitoring
   - Update configuration management database

5. VERIFICATION AND VALIDATION
   - Confirm service restoration and functionality
   - Monitor system stability for minimum 2 hours
   - Validate with affected users and stakeholders
   - Update incident status to resolved

6. POST-INCIDENT ACTIVITIES
   - Conduct post-mortem review meeting
   - Document lessons learned and action items
   - Update monitoring and alerting rules
   - Schedule follow-up checks to prevent recurrence

VALIDATION CHECKS:
- [ ] All services are operational
- [ ] Performance metrics are within normal ranges
- [ ] No error alerts in monitoring systems
- [ ] User access and functionality confirmed
- [ ] Documentation updated

ROLLBACK PLAN:
- Revert to last known good configuration
- Restore from recent backup if necessary
- Re-enable services in controlled manner
- Monitor for any rollback complications
- Communicate rollback status to stakeholders

APPROVAL:
This SOP was generated based on successful resolution of similar infrastructure incidents and should be reviewed quarterly for updates."

/-- The `application` entry of the SOP `templates` object. -/
def sopTemplateApplication (issue : Issue) : String :=
  "STANDARD OPERATING PROCEDURE: APPLICATION INCIDENT RESPONSE

TITLE: " ++ issue.title ++ "
CATEGORY: " ++ issue.category ++ "
SEVERITY: " ++ issue.severity ++ "
ENVIRONMENT: " ++ issue.environment ++ "

PURPOSE:
This SOP provides a standardized approach for resolving application-related issues similar to \"" ++ issue.title ++ "\".

SCOPE:
This procedure applies to all application components in " ++ issue.environment ++ " environment, including web applications, APIs, and backend services.

PRECONDITIONS:
- Access to application source code and deployment pipelines
- Development and staging environments available
- Application monitoring and logging tools configured
- Rollback procedures documented and tested

STEP-BY-STEP PROCEDURE:

1. ISSUE REPRODUCTION AND ANALYSIS
   - Reproduce the issue in development environment
   - Identify the exact steps to trigger the problem
   - Document expected vs actual behavior
   - Determine impact on users and business processes

2. CODE AND CONFIGURATION REVIEW
   - Review recent code changes in affected modules
   - Check error logs and stack traces for patterns
   - Analyze recent configuration changes
   - Identify the specific component causing the issue

3. DEBUGGING AND ISOLATION
   - Set up debugging environment with appropriate tools
   - Add logging to track execution flow
   - Isolate the problematic code section
   - Test potential fixes in isolation

4. FIX DEVELOPMENT AND TESTING
   - Develop a targeted fix for the root cause
   - Write comprehensive unit tests to verify the fix
   - Test the fix in staging environment
   - Perform regression testing on related functionality

5. DEPLOYMENT AND MONITORING
   - Deploy fix to production with feature flag if possible
   - Monitor application performance and error rates closely
   - Have rollback plan ready if unexpected issues arise
   - Gradually increase traffic to fixed components

6. POST-DEPLOYMENT VALIDATION
   - Verify the issue is completely resolved
   - Monitor system stability for extended period
   - Collect feedback from affected users
   - Update documentation and knowledge base

VALIDATION CHECKS:
- [ ] Application functionality restored
- [ ] Error rates within acceptable thresholds
- [ ] Performance metrics normal
- [ ] User testing confirms resolution
- [ ] No new issues introduced

ROLLBACK PLAN:
- Revert to previous application version
- Restore database to pre-deployment state
- Disable problematic features
- Monitor system during rollback process
- Communicate rollback to stakeholders

APPROVAL:
This SOP was generated based on successful resolution of similar application incidents and should be reviewed quarterly for updates."

/-- The `database` entry of the SOP `templates` object. -/
def sopTemplateDatabase (issue : Issue) : String :=
  "STANDARD OPERATING PROCEDURE: DATABASE INCIDENT RESPONSE

TITLE: " ++ issue.title ++ "
CATEGORY: " ++ issue.category ++ "
SEVERITY: " ++ issue.severity ++ "
ENVIRONMENT: " ++ issue.environment ++ "

PURPOSE:
This SOP provides a standardized approach for resolving database-related issues similar to \"" ++ issue.title ++ "\".

SCOPE:
This procedure applies to all database systems in " ++ issue.environment ++ " environment, including primary, replica, and backup databases.

PRECONDITIONS:
- Database administration access and privileges
- Current database backups verified and accessible
- Database monitoring and alerting systems active
- Disaster recovery procedures documented and tested

STEP-BY-STEP PROCEDURE:

1. IMPACT ASSESSMENT AND CONTAINMENT
   - Identify affected databases and tables
   - Check data integrity and consistency
   - Estimate data loss or corruption scope
   - Implement immediate containment measures

2. IMMEDIATE RESPONSE ACTIONS
   - Switch to read-only mode if data corruption suspected
   - Promote standby database if available
   - Implement application-level caching to reduce load
   - Communicate database status to application teams

3. ROOT CAUSE INVESTIGATION
   - Review database error logs and alert history
   - Check query performance metrics and execution plans
   - Analyze recent schema changes or migrations
   - Examine hardware and system resource utilization

4. RECOVERY PROCEDURES
   - Determine appropriate recovery strategy based on impact
   - Restore from recent backup if necessary
   - Reapply transactions from backup point to current time
   - Validate data integrity post-restoration

5. PERFORMANCE OPTIMIZATION
   - Review and optimize slow queries identified
   - Update database statistics and rebuild indexes
   - Consider indexing improvements for affected queries
   - Tune database configuration parameters

6. VERIFICATION AND MONITORING
   - Validate data integrity with checksums and queries
   - Monitor database performance metrics closely
   - Test application functionality with recovered data
   - Establish enhanced monitoring for similar issues

VALIDATION CHECKS:
- [ ] Data integrity verified through checksums
- [ ] All applications can access required data
- [ ] Query performance within acceptable ranges
- [ ] Replication and backup processes functional
- [ ] No data loss or corruption detected

ROLLBACK PLAN:
- Restore from most recent clean backup
- Re-run failed transactions in correct order
- Re-establish database replication
- Verify application compatibility with restored data
- Monitor for any rollback-related issues

APPROVAL:
This SOP was generated based on successful resolution of similar database incidents and should be reviewed quarterly for updates."

/-- The category dispatch of the SOP `templates[issue.category]` object
access (`none` models `undefined` for an unrecognized category). -/
def sopTemplatesFor (issue : Issue) : Option String :=
  if issue.category = "infrastructure" then some (sopTemplateInfrastructure issue)
  else if issue.category = "application" then some (sopTemplateApplication issue)
  else if issue.category = "database" then some (sopTemplateDatabase issue)
  else none

/-- `generateSOPTemplate(issue, resolution)`: select the category template,
falling back to the infrastructure template (`|| templates.infrastructure`).
The `resolution` argument is accepted but unused by the source template. -/
def generateSOPTemplate (issue : Issue) (resolution : String) : String :=
  (sopTemplatesFor issue).getD (sopTemplateInfrastructure issue)

/-! ## Generation route handlers -/

/-- Fresh primary key for an `aiResolution` insert. -/
def freshResId (rs : List AiResolution) : ℕ :=
  (rs.map (fun r => r.id)).foldr max 0 + 1

/-- Fresh monotone `generatedAt` stamp for an `aiResolution` insert. -/
def freshStamp (rs : List AiResolution) : ℕ :=
  (rs.map (fun r => r.generatedAt)).foldr max 0 + 1

/-- Fresh primary key for an `aiSop` insert. -/
def freshSopId (ss : List AiSop) : ℕ :=
  (ss.map (fun s => s.id)).foldr max 0 + 1

/-- `generateResolutionWithOllama`: on a backend reply use its text, on any
backend failure fall back to the deterministic template. -/
def generateResolutionWithOllama (issue : Issue) (relevantContent : List ScoredEntry)
    (backend : Option String) (rand : ℚ) : String :=
  match backend with
  | some text => text
  | none => generateResolutionTemplate issue relevantContent rand

/-- `generateSOPWithOllama`: same shape for the SOP path. -/
def generateSOPWithOllama (issue : Issue) (resolution : String)
    (backend : Option String) : String :=
  match backend with
  | some text => text
  | none => generateSOPTemplate issue resolution

/-- The resolution-generation route (`POST`, resolution route lines
299–408): missing issue → 404; an existing resolution for the issue → 400
duplicate guard; otherwise retrieve relevant content, generate (backend or
fallback), insert the `aiResolution` record, set the issue's status to
`in_progress`, and increment the usage counters of the retrieved entries. -/
def resPOST (db : DB) (issueId : ℕ) (backend : Option String) (rand : ℚ) :
    ApiResult × DB :=
  match db.issues.find? (fun i => i.id == issueId) with
  | none => (.err 404 "Issue not found", db)
  | some issue =>
    match db.resolutions.find? (fun r => r.issueId == issueId) with
    | some _ => (.err 400 "Resolution already exists for this issue", db)
    | none =>
      let relevantContent := retrieveRelevantContent db.kb (issue.title ++ " " ++ issue.description)
      let resolutionText := generateResolutionWithOllama issue relevantContent backend rand
      let newRecord : AiResolution :=
        { id := freshResId db.resolutions, issueId := issueId,
          resolutionText := resolutionText, userRating := none,
          userFeedback := none, generatedAt := freshStamp db.resolutions }
      let newIssues := db.issues.map (fun i =>
        if i.id == issueId then { i with status := "in_progress" } else i)
      let newKb := incUsage db.kb (relevantContent.map (fun s => s.entry.id))
      (.ok resolutionText,
        { db with resolutions := db.resolutions ++ [newRecord],
                  issues := newIssues, kb := newKb })

/-- Whether an optional stored rating exists and is at least `q`
(`r.userRating && r.userRating >= q`). -/
def ratingGe (o : Option ℚ) (q : ℚ) : Bool :=
  match o with
  | none => false
  | some v => decide (q ≤ v)

/-- The `include` of the SOP route issue lookup: resolutions of the issue
with `userRating ≥ 4`, ordered by `generatedAt desc`, `take 1`. -/
def highRatedResolutions (db : DB) (issueId : ℕ) : List AiResolution :=
  (((db.resolutions.filter (fun r => r.issueId == issueId && ratingGe r.userRating 4)).mergeSort
    (fun a b => decide (b.generatedAt ≤ a.generatedAt))).take 1)

/-- The SOP-generation route (`POST /api/ai/generate-sop`, lines 262–372):
missing issue → 404; issue not `resolved` → 400; no resolution rated ≥ 4 →
400; an existing SOP for the issue → 400; otherwise generate the SOP text
(backend or fallback from the best-rated resolution), insert the `aiSop`
record, and — since the best resolution is rated ≥ 4 — unconditionally
insert a new `'sop'`-type knowledge-base entry carrying that rating. -/
def sopPOST (db : DB) (issueId : ℕ) (backend : Option String) : ApiResult × DB :=
  match db.issues.find? (fun i => i.id == issueId) with
  | none => (.err 404 "Issue not found", db)
  | some issue =>
    if issue.status ≠ "resolved" then
      (.err 400 "Issue must be resolved before generating SOP", db)
    else
      match highRatedResolutions db issueId with
      | [] => (.err 400 "No highly-rated resolution found for this issue", db)
      | bestResolution :: _ =>
        match db.sops.find? (fun s => s.issueId == issueId) with
        | some _ => (.err 400 "SOP already exists for this issue", db)
        | none =>
          let sopText := generateSOPWithOllama issue bestResolution.resolutionText backend
          let newSop : AiSop :=
            { id := freshSopId db.sops, issueId := issueId, sopText := sopText }
          let db1 := { db with sops := db.sops ++ [newSop] }
          let db2 :=
            match bestResolution.userRating with
            | some v =>
              if 4 ≤ v then
                { db1 with kb := db1.kb ++
                  [{ id := freshId db1.kb, content := sopText, contentType := "sop",
                     averageRating := v, usageCount := 1 }] }
              else db1
            | none => db1
          (.ok sopText, db2)

/-! ## Claim theorems -/

/-- C2: for every rating event with `rating ≥ 4`, an existing entry with
exactly matching content and contentType is updated to `newAverage =
(oldAverage * oldUsageCount + rating) / (oldUsageCount + 1)` with
`usageCount + 1`; with no match a new entry is created with `averageRating
= rating, usageCount = 1`; in particular an entry at `averageRating = 4.0,
usageCount = 1` rated 5 becomes `averageRating = 4.5, usageCount = 2`. -/
theorem promoter_running_average (kb : List KnowledgeEntry) (content : String)
    (r : ℚ) (existing : KnowledgeEntry) (h4 : 4 ≤ r) :
    (kb.find? (fun e => e.content == content && e.contentType == "resolution") =
        some existing →
      promoteRating kb content r = kb.map (fun e =>
        if e.id == existing.id then
          { e with
            usageCount := existing.usageCount + 1
            averageRating := (existing.averageRating * existing.usageCount + r) /
              (existing.usageCount + 1) }
        else e)) ∧
    (kb.find? (fun e => e.content == content && e.contentType == "resolution") = none →
      promoteRating kb content r = kb ++
        [{ id := freshId kb, content := content, contentType := "resolution",
           averageRating := r, usageCount := 1 }]) ∧
    promoteRating [{ id := 1, content := content, contentType := "resolution",
                     averageRating := 4, usageCount := 1 }] content 5 =
      [{ id := 1, content := content, contentType := "resolution",
         averageRating := 9/2, usageCount := 2 }] := by
  refine ⟨?_, ?_, ?_⟩
  · intro hfind
    rw [promoteRating, if_pos h4, hfind]
  · intro hfind
    rw [promoteRating, if_pos h4, hfind]
  · norm_num [promoteRating, List.find?]

/-- Witness for C2 at a concrete store: the single entry `"fix"` at average
4 with one use, rated 5, moves to average 9/2 and two uses. -/
theorem promoter_running_average_witness :
    promoteRating [{ id := 1, content := "fix", contentType := "resolution",
                     averageRating := 4, usageCount := 1 }] "fix" 5 =
      [{ id := 1, content := "fix", contentType := "resolution",
         averageRating := 9/2, usageCount := 2 }] :=
  (promoter_running_average [] "fix" 5
    { id := 1, content := "fix", contentType := "resolution",
      averageRating := 4, usageCount := 1 } (by norm_num)).2.2

/-- C5: a rating event with rating 1, 2 or 3 leaves the KnowledgeEntry
table completely unchanged. -/
theorem sub4_rating_no_kb_mutation (db : DB) (rid : ℕ) (r : ℚ) (fb : Option String)
    (h : r = 1 ∨ r = 2 ∨ r = 3) :
    ((ratePOST db rid r fb).2).kb = db.kb := by
  have hr4 : ¬ (4:ℚ) ≤ r := by
    rcases h with rfl | rfl | rfl <;> norm_num
  simp only [ratePOST]
  split_ifs with hv
  · rfl
  · cases hfind : db.resolutions.find? (fun x => x.id == rid) with
    | none => rfl
    | some res =>
      show promoteRating db.kb res.resolutionText r = db.kb
      rw [promoteRating, if_neg hr4]

/-- Concrete store used by the C5 witness. -/
def dbC5 : DB :=
  { issues := []
    resolutions := [{ id := 1, issueId := 1, resolutionText := "fix",
                      userRating := none, userFeedback := none, generatedAt := 1 }]
    sops := []
    kb := [{ id := 1, content := "fix", contentType := "resolution",
             averageRating := 4, usageCount := 1 }]
    aiRatings := [] }

/-- Witness for C5: rating 2 on a concrete store with one knowledge entry
changes nothing in the knowledge base. -/
theorem sub4_rating_no_kb_mutation_witness :
    ((ratePOST dbC5 1 2 none).2).kb =
      [{ id := 1, content := "fix", contentType := "resolution",
         averageRating := 4, usageCount := 1 }] :=
  sub4_rating_no_kb_mutation dbC5 1 2 none (Or.inr (Or.inl rfl))

/-- C6: retrieval returns at most `limit` results, every returned entry has
`averageRating ≥ 3.5` and a computed `finalScore > 0.1`, and an empty
candidate pool yields the empty sequence. -/
theorem retrieve_spec (kb : List KnowledgeEntry) (query contentType : String)
    (limit : ℕ) :
    (retrieve kb query contentType limit).length ≤ limit ∧
    (∀ s ∈ retrieve kb query contentType limit,
      (3.5 : ℚ) ≤ s.entry.averageRating ∧ jsGt s.similarityScore 0.1 = true) ∧
    retrieve [] query contentType limit = [] := by
  refine ⟨?_, ?_, ?_⟩
  · simp only [retrieve]
    exact List.length_take_le _ _
  · intro s hs
    simp only [retrieve] at hs
    have hs1 := List.mem_mergeSort.mp (List.mem_of_mem_take hs)
    have hs2 := List.mem_filter.mp hs1
    refine ⟨?_, hs2.2⟩
    rcases List.mem_map.mp hs2.1 with ⟨e, he, rfl⟩
    have he1 := List.mem_mergeSort.mp (List.mem_of_mem_take he)
    have he2 := List.mem_filter.mp he1
    have he3 : decide ((3.5:ℚ) ≤ e.averageRating) = true :=
      (Bool.and_eq_true _ _ |>.mp he2.2).2
    exact of_decide_eq_true he3
  · simp [retrieve]

/-- A concrete knowledge entry used as input of several witnesses:
content `"connect"`, rated 4, used once. -/
def eConnect : KnowledgeEntry :=
  { id := 1, content := "connect", contentType := "resolution",
    averageRating := 4, usageCount := 1 }

/-- One-entry concrete store around `eConnect`. -/
def kbConnect : List KnowledgeEntry := [eConnect]

/-- The scored retrieval result for `eConnect` under the query
`"connect"`: score `1 * 0.6 + (4/5) * 0.3 + (1/10) * 0.1 = 17/20`. -/
def sConnect : ScoredEntry :=
  { entry := eConnect
    similarityScore := some (17/20)
    matchedKeywords := [['c','o','n','n','e','c','t']] }

/-- Concrete evaluation of the retrieval pipeline on the one-entry store. -/
theorem retrieve_connect_eval :
    retrieve kbConnect "connect" "resolution" 3 = [sConnect] := by
  have hE : extractKeywords ['c','o','n','n','e','c','t'] =
      [['c','o','n','n','e','c','t']] := by decide
  norm_num [retrieve, scoreEntry, jsDiv, jsGt, byRatingUsageDesc, jsScoreGe, hE,
    kbConnect, sConnect, eConnect]

/-- Witness for C6: on a one-entry store the retrieval returns the entry,
which satisfies the quality and relevance floors, within the limit. -/
theorem retrieve_spec_witness :
    (retrieve kbConnect "connect" "resolution" 3).length ≤ 3 ∧
    ((3.5 : ℚ) ≤ sConnect.entry.averageRating ∧
      jsGt sConnect.similarityScore 0.1 = true) :=
  ⟨(retrieve_spec kbConnect "connect" "resolution" 3).1,
    (retrieve_spec kbConnect "connect" "resolution" 3).2.1 sConnect
      (by rw [retrieve_connect_eval]; exact List.mem_singleton.mpr rfl)⟩

/-- The knowledge entry of the C4 counterexample: rated 4 (inside [1,5])
but with no extractable keywords in its content. -/
def eC4 : KnowledgeEntry :=
  { id := 1, content := "a b", contentType := "resolution",
    averageRating := 4, usageCount := 0 }

/-- C4 counterexample: with an empty query keyword set and an entry whose
content has no extractable keywords, the code computes `0/0`, which in
JavaScript is NaN — not the `keywordSimilarity = 0` the claim asserts —
so `finalScore` is NaN as well and in particular no rational in [0,1]. -/
theorem scorer_nan_counterexample :
    (scoreEntry [] eC4).similarityScore = none ∧
    ¬ ∃ s : ℚ, (scoreEntry [] eC4).similarityScore = some s ∧ 0 ≤ s ∧ s ≤ 1 := by
  have hE : extractKeywords ['a', ' ', 'b'] = [] := by decide
  have h : (scoreEntry [] eC4).similarityScore = none := by
    simp [scoreEntry, jsDiv, hE, eC4]
  refine ⟨h, ?_⟩
  rw [h]
  rintro ⟨s, hs, -⟩
  cases hs

/-- C4 (amended): whenever the query keyword set and the entry keyword set
are not both empty, the final score is a defined rational with
`0 ≤ finalScore ≤ 1`, for every entry with `averageRating ∈ [1,5]`. -/
theorem scorer_bounds (qk : List (List Char)) (e : KnowledgeEntry)
    (h1 : 1 ≤ e.averageRating) (h5 : e.averageRating ≤ 5)
    (hne : qk ≠ [] ∨ extractKeywords e.content.toList ≠ []) :
    ∃ s : ℚ, (scoreEntry qk e).similarityScore = some s ∧ 0 ≤ s ∧ s ≤ 1 := by
  have hd : 0 < max qk.length (extractKeywords e.content.toList).length := by
    rcases hne with hq | hc
    · exact lt_of_lt_of_le (List.length_pos.mpr hq) (le_max_left _ _)
    · exact lt_of_lt_of_le (List.length_pos.mpr hc) (le_max_right _ _)
  have hdq : ((max qk.length (extractKeywords e.content.toList).length : ℕ) : ℚ) ≠ 0 := by
    exact_mod_cast Nat.pos_iff_ne_zero.mp hd
  have hdq' : (0:ℚ) < ((max qk.length (extractKeywords e.content.toList).length : ℕ) : ℚ) := by
    exact_mod_cast hd
  simp only [scoreEntry, jsDiv, if_neg hdq, Option.map_some']
  refine ⟨_, rfl, ?_, ?_⟩
  · have t1 : (0:ℚ) ≤ ((qk.filter
        (fun k => (extractKeywords e.content.toList).contains k)).length : ℚ) /
        ((max qk.length (extractKeywords e.content.toList).length : ℕ) : ℚ) := by
      positivity
    have t2 : (0:ℚ) ≤ e.averageRating / 5 := by linarith
    have t3 : (0:ℚ) ≤ min ((e.usageCount : ℚ) / 10) 1 :=
      le_min (by positivity) (by norm_num)
    nlinarith
  · have u1 : ((qk.filter
        (fun k => (extractKeywords e.content.toList).contains k)).length : ℚ) /
        ((max qk.length (extractKeywords e.content.toList).length : ℕ) : ℚ) ≤ 1 := by
      rw [div_le_one hdq']
      exact_mod_cast le_trans (List.length_filter_le _ _) (le_max_left _ _)
    have u2 : e.averageRating / 5 ≤ 1 := by linarith
    have u3 : min ((e.usageCount : ℚ) / 10) 1 ≤ 1 := min_le_right _ _
    nlinarith

/-- Witness for C4 (amended): the scorer on the one-keyword query
`connect` against the matching entry yields the defined score 17/20. -/
theorem scorer_bounds_witness :
    ∃ s : ℚ,
      (scoreEntry [['c','o','n','n','e','c','t']] eConnect).similarityScore = some s ∧
        0 ≤ s ∧ s ≤ 1 :=
  scorer_bounds [['c','o','n','n','e','c','t']] eConnect
    (by norm_num [eConnect]) (by norm_num [eConnect]) (Or.inl (by decide))

/-- C3 (amended): on every KnowledgeEntry state reachable by interleaving
retrieval calls and validated rating events from the empty table,
`averageRating` stays within [1,5]. -/
theorem reachable_averageRating_bounds (kb : List KnowledgeEntry)
    (h : Reachable kb) :
    ∀ e ∈ kb, 1 ≤ e.averageRating ∧ e.averageRating ≤ 5 := by
  induction h with
  | empty => simp
  | rate content r h1 h5 _ ih => exact promoteRating_bounds content r h1 h5 ih
  | retrieval query contentType limit _ ih => exact incUsage_bounds _ ih

/-- Witness for C3 (amended): after one rating event with rating 4 the
resulting single entry has its average inside [1,5]. -/
theorem reachable_averageRating_bounds_witness :
    1 ≤ ({ id := 1, content := "fix", contentType := "resolution",
           averageRating := 4, usageCount := 1 } : KnowledgeEntry).averageRating ∧
    ({ id := 1, content := "fix", contentType := "resolution",
       averageRating := 4, usageCount := 1 } : KnowledgeEntry).averageRating ≤ 5 := by
  have hkb : promoteRating [] "fix" 4 =
      [{ id := 1, content := "fix", contentType := "resolution",
         averageRating := 4, usageCount := 1 }] := by
    norm_num [promoteRating, freshId, List.find?]
  exact reachable_averageRating_bounds _
    (Reachable.rate "fix" 4 (by norm_num) (by norm_num) Reachable.empty) _
    (by rw [hkb]; exact List.mem_singleton.mpr rfl)

/-- The concrete interleaving of the C3 counterexample: rate `"connect"`
with 4 (creating the entry), retrieve it once (incrementing `usageCount`
to 2), then rate the same content 5. -/
def kbTrace : List KnowledgeEntry :=
  promoteRating
    (incUsage (promoteRating [] "connect" 4)
      ((retrieve (promoteRating [] "connect" 4) "connect" "resolution" 3).map
        (fun s => s.entry.id)))
    "connect" 5

/-- C3 counterexample: on the reachable state of `kbTrace` the entry's
`averageRating` is 13/3, while the running mean of the two ratings that
contributed (4 and 5) is 9/2 — the retrieval-inflated `usageCount` enters
the running-average denominator, so the claimed "running mean of all
contributing ratings" property fails under interleaving. -/
theorem running_mean_counterexample :
    Reachable kbTrace ∧
    kbTrace = [{ id := 1, content := "connect", contentType := "resolution",
                 averageRating := 13/3, usageCount := 3 }] ∧
    (13/3 : ℚ) ≠ (4 + 5) / 2 := by
  refine ⟨?_, ?_, by norm_num⟩
  · exact Reachable.rate "connect" 5 (by norm_num) (by norm_num)
      (Reachable.retrieval "connect" "resolution" 3
        (Reachable.rate "connect" 4 (by norm_num) (by norm_num) Reachable.empty))
  · have h1 : promoteRating [] "connect" 4 = kbConnect := by
      norm_num [promoteRating, freshId, List.find?, kbConnect, eConnect]
    have hids : ([sConnect].map (fun s => s.entry.id)) = [1] := by
      simp [sConnect, eConnect]
    have h3 : incUsage kbConnect [1] =
        [{ id := 1, content := "connect", contentType := "resolution",
           averageRating := 4, usageCount := 2 }] := by
      norm_num [incUsage, kbConnect, eConnect]
    rw [kbTrace, h1, retrieve_connect_eval, hids, h3]
    norm_num [promoteRating, List.find?]

/-- The rating-independent part of a knowledge entry: everything except
`usageCount`. -/
def stripUsage (e : KnowledgeEntry) : ℕ × String × String × ℚ :=
  (e.id, e.content, e.contentType, e.averageRating)

theorem stripUsage_incUsage (kb : List KnowledgeEntry) (ids : List ℕ) :
    (incUsage kb ids).map stripUsage = kb.map stripUsage := by
  unfold incUsage
  rw [List.map_map]
  apply List.map_congr_left
  intro e _
  simp only [Function.comp_apply]
  split_ifs <;> rfl

/-- The concrete store of the C1 counterexample: a resolved issue with a
5-star resolution, no SOP yet, and a knowledge entry whose content equals
the SOP text the backend will return. -/
def dbC1 : DB :=
  { issues := [{ id := 1, title := "t", description := "d", category := "database",
                 severity := "high", environment := "production", status := "resolved" }]
    resolutions := [{ id := 1, issueId := 1, resolutionText := "fix it",
                      userRating := some 5, userFeedback := none, generatedAt := 1 }]
    sops := []
    kb := [{ id := 1, content := "S", contentType := "sop",
             averageRating := 4, usageCount := 1 }]
    aiRatings := [] }

/-- C1 counterexample: the SOP-generation route—not the rating handler—
mutates the KnowledgeEntry table, and its insert is not keyed by content
equality: after generation the table holds two entries with identical
content `"S"` and type `"sop"` instead of one accumulated entry. -/
theorem sole_write_path_counterexample :
    (sopPOST dbC1 1 (some "S")).2.kb ≠ dbC1.kb ∧
    ((sopPOST dbC1 1 (some "S")).2.kb.filter
      (fun e => e.content == "S" && e.contentType == "sop")).length = 2 := by
  have heval : (sopPOST dbC1 1 (some "S")).2.kb =
      [{ id := 1, content := "S", contentType := "sop",
         averageRating := 4, usageCount := 1 },
       { id := 2, content := "S", contentType := "sop",
         averageRating := 5, usageCount := 1 }] := by
    norm_num [sopPOST, dbC1, highRatedResolutions, ratingGe, freshSopId, freshId,
      generateSOPWithOllama, List.find?]
  rw [heval]
  refine ⟨?_, rfl⟩
  simp [dbC1]

/-- C1 (amended): the rating handler is the only operation that writes
`averageRating` or inserts content-keyed entries; the other operations
touch the table only as follows — retrieval and resolution generation
change nothing but `usageCount` of existing entries, and SOP generation
either leaves the table unchanged or appends exactly one new `'sop'`-type
entry (an insert that is not content-deduplicated). -/
theorem kb_write_paths (db : DB) (query contentType : String) (limit : ℕ)
    (issueId issueId2 : ℕ) (backend backend2 : Option String) (rand : ℚ) :
    ((retrievePOST db query contentType limit).2.kb).map stripUsage =
      db.kb.map stripUsage ∧
    ((resPOST db issueId backend rand).2.kb).map stripUsage =
      db.kb.map stripUsage ∧
    ((sopPOST db issueId2 backend2).2.kb = db.kb ∨
      ∃ t v, (sopPOST db issueId2 backend2).2.kb = db.kb ++
        [{ id := freshId db.kb, content := t, contentType := "sop",
           averageRating := v, usageCount := 1 }]) := by
  refine ⟨?_, ?_, ?_⟩
  · simp only [retrievePOST]
    split_ifs
    · rfl
    · exact stripUsage_incUsage _ _
  · simp only [resPOST]
    cases db.issues.find? (fun i => i.id == issueId) with
    | none => rfl
    | some issue =>
      cases db.resolutions.find? (fun r => r.issueId == issueId) with
      | some _ => rfl
      | none => exact stripUsage_incUsage _ _
  · simp only [sopPOST]
    split
    · exact Or.inl rfl
    · split
      · exact Or.inl rfl
      · split
        · exact Or.inl rfl
        · split
          · exact Or.inl rfl
          · split
            · split
              · exact Or.inr ⟨_, _, rfl⟩
              · exact Or.inl rfl
            · exact Or.inl rfl

/-- C7: SOP generation is refused with a rejected-operation error and no
state change when the issue is not resolved, when it has no resolution
rated ≥ 4, or when an SOP already exists; and resolution generation is
refused when a resolution already exists for the issue.  In each case the
store — in particular every artifact table — is returned unchanged. -/
theorem precondition_guards (db : DB) (issueId issueId2 : ℕ)
    (backend backend2 : Option String) (rand : ℚ) (issue : Issue)
    (hfind : db.issues.find? (fun i => i.id == issueId) = some issue) :
    (issue.status ≠ "resolved" →
      sopPOST db issueId backend =
        (.err 400 "Issue must be resolved before generating SOP", db)) ∧
    (issue.status = "resolved" → highRatedResolutions db issueId = [] →
      sopPOST db issueId backend =
        (.err 400 "No highly-rated resolution found for this issue", db)) ∧
    (issue.status = "resolved" → highRatedResolutions db issueId ≠ [] →
      (db.sops.find? (fun s => s.issueId == issueId)).isSome = true →
      sopPOST db issueId backend =
        (.err 400 "SOP already exists for this issue", db)) ∧
    ((db.issues.find? (fun i => i.id == issueId2)).isSome = true →
      (db.resolutions.find? (fun r => r.issueId == issueId2)).isSome = true →
      resPOST db issueId2 backend2 rand =
        (.err 400 "Resolution already exists for this issue", db)) := by
  refine ⟨?_, ?_, ?_, ?_⟩
  · intro hstatus
    simp only [sopPOST, hfind]
    rw [if_pos hstatus]
  · intro hstatus hempty
    simp only [sopPOST, hfind, hempty]
    rw [if_neg (by simp [hstatus])]
  · intro hstatus hne hsop
    rcases Option.isSome_iff_exists.mp hsop with ⟨s, hs⟩
    rcases List.exists_cons_of_ne_nil hne with ⟨best, rest, hbest⟩
    simp only [sopPOST, hfind, hbest, hs]
    rw [if_neg (by simp [hstatus])]
  · intro hissue hres
    rcases Option.isSome_iff_exists.mp hissue with ⟨i2, hi2⟩
    rcases Option.isSome_iff_exists.mp hres with ⟨r2, hr2⟩
    simp only [resPOST, hi2, hr2]

/-- The concrete store of the C7 witness: issue 1 is still `open` and
already has a generated resolution. -/
def dbC7 : DB :=
  { issues := [{ id := 1, title := "t", description := "d", category := "network",
                 severity := "low", environment := "staging", status := "open" }]
    resolutions := [{ id := 1, issueId := 1, resolutionText := "fix it",
                      userRating := none, userFeedback := none, generatedAt := 1 }]
    sops := []
    kb := []
    aiRatings := [] }

/-- Witness for C7: on `dbC7`, SOP generation is rejected because the issue
is not resolved, and resolution generation is rejected as a duplicate; the
store is unchanged both times. -/
theorem precondition_guards_witness :
    sopPOST dbC7 1 none =
      (.err 400 "Issue must be resolved before generating SOP", dbC7) ∧
    resPOST dbC7 1 none 0 =
      (.err 400 "Resolution already exists for this issue", dbC7) := by
  have h := precondition_guards dbC7 1 1 none none 0
    { id := 1, title := "t", description := "d", category := "network",
      severity := "low", environment := "staging", status := "open" }
    (by decide)
  exact ⟨h.1 (by decide), h.2.2.2 (by decide) (by decide)⟩

/-- C10: every successful resolution generation, besides appending the
GeneratedResolution record, unconditionally overwrites the issue's
`status` to `in_progress` (whatever it was) and changes no other issue
field. -/
theorem resolution_generation_issue_side_effect (db : DB) (issueId : ℕ)
    (backend : Option String) (rand : ℚ) (issue : Issue)
    (hfind : db.issues.find? (fun i => i.id == issueId) = some issue)
    (hnone : db.resolutions.find? (fun r => r.issueId == issueId) = none) :
    (resPOST db issueId backend rand).2.issues =
      db.issues.map (fun i =>
        if i.id == issueId then { i with status := "in_progress" } else i) ∧
    (resPOST db issueId backend rand).2.resolutions =
      db.resolutions ++
        [{ id := freshResId db.resolutions, issueId := issueId,
           resolutionText := generateResolutionWithOllama issue
             (retrieveRelevantContent db.kb (issue.title ++ " " ++ issue.description))
             backend rand,
           userRating := none, userFeedback := none,
           generatedAt := freshStamp db.resolutions }] := by
  simp only [resPOST, hfind, hnone]
  exact ⟨by trivial, by trivial⟩

/-- The concrete store of the C10 witness: one open issue, no resolutions. -/
def dbC10 : DB :=
  { issues := [{ id := 1, title := "t", description := "d", category := "api",
                 severity := "low", environment := "staging", status := "open" }]
    resolutions := []
    sops := []
    kb := []
    aiRatings := [] }

/-- Witness for C10: generating a resolution (backend text `"R"`) for the
open issue flips it to `in_progress`, leaves its other fields intact, and
appends the resolution record. -/
theorem resolution_generation_issue_side_effect_witness :
    (resPOST dbC10 1 (some "R") 0).2.issues =
      dbC10.issues.map (fun i =>
        if i.id == 1 then { i with status := "in_progress" } else i) ∧
    (resPOST dbC10 1 (some "R") 0).2.resolutions =
      dbC10.resolutions ++
        [{ id := freshResId dbC10.resolutions, issueId := 1,
           resolutionText := generateResolutionWithOllama
             { id := 1, title := "t", description := "d", category := "api",
               severity := "low", environment := "staging", status := "open" }
             (retrieveRelevantContent dbC10.kb ("t" ++ " " ++ "d"))
             (some "R") 0,
           userRating := none, userFeedback := none,
           generatedAt := freshStamp dbC10.resolutions }] :=
  resolution_generation_issue_side_effect dbC10 1 (some "R") 0
    { id := 1, title := "t", description := "d", category := "api",
      severity := "low", environment := "staging", status := "open" }
    (by decide) (by decide)

/-! ### Facts about the fallback templates (claim C8) -/

theorem length_pos_append (a b : String) (h : 0 < a.length) : 0 < (a ++ b).length := by
  rw [String.length_append]
  omega

theorem resTemplateInfrastructure_pos (issue : Issue) :
    0 < (resTemplateInfrastructure issue).length := by
  rw [resTemplateInfrastructure]
  repeat apply length_pos_append
  decide

theorem resTemplateApplication_pos (issue : Issue) :
    0 < (resTemplateApplication issue).length := by
  rw [resTemplateApplication]
  repeat apply length_pos_append
  decide

theorem resTemplateDatabase_pos (issue : Issue) :
    0 < (resTemplateDatabase issue).length := by
  rw [resTemplateDatabase]
  repeat apply length_pos_append
  decide

theorem resTemplateNetwork_pos (issue : Issue) :
    0 < (resTemplateNetwork issue).length := by
  rw [resTemplateNetwork]
  repeat apply length_pos_append
  decide

theorem resTemplateSecurity_pos (issue : Issue) :
    0 < (resTemplateSecurity issue).length := by
  rw [resTemplateSecurity]
  repeat apply length_pos_append
  decide

theorem sopTemplateInfrastructure_pos (issue : Issue) :
    0 < (sopTemplateInfrastructure issue).length := by
  rw [sopTemplateInfrastructure]
  repeat apply length_pos_append
  decide

theorem sopTemplateApplication_pos (issue : Issue) :
    0 < (sopTemplateApplication issue).length := by
  rw [sopTemplateApplication]
  repeat apply length_pos_append
  decide

theorem sopTemplateDatabase_pos (issue : Issue) :
    0 < (sopTemplateDatabase issue).length := by
  rw [sopTemplateDatabase]
  repeat apply length_pos_append
  decide

theorem templates_len_one (issue : Issue) :
    ((resolutionTemplatesFor issue).getD [resTemplateInfrastructure issue]).length = 1 := by
  rw [resolutionTemplatesFor]
  split_ifs <;> rfl

/-- Every category list holds exactly one template, so the
`Math.floor(Math.random() * length)` draw always selects index 0. -/
theorem generateResolutionTemplate_eval (issue : Issue) (rc : List ScoredEntry)
    (rand : ℚ) (h0 : 0 ≤ rand) (h1 : rand < 1) :
    generateResolutionTemplate issue rc rand =
      (if 0 < rc.length then
        ((resolutionTemplatesFor issue).getD [resTemplateInfrastructure issue]).getD 0 ""
          ++ ragSection rc
       else
        ((resolutionTemplatesFor issue).getD [resTemplateInfrastructure issue]).getD 0 "") := by
  have hidx : (⌊rand * (((resolutionTemplatesFor issue).getD
      [resTemplateInfrastructure issue]).length : ℚ)⌋).toNat = 0 := by
    rw [templates_len_one issue, Nat.cast_one, mul_one]
    rw [Int.floor_eq_zero_iff.mpr ⟨h0, h1⟩]
    rfl
  simp only [generateResolutionTemplate, hidx]

theorem resolution_base_pos (issue : Issue) :
    0 < (((resolutionTemplatesFor issue).getD
      [resTemplateInfrastructure issue]).getD 0 "").length := by
  rw [resolutionTemplatesFor]
  split_ifs <;>
    simp only [Option.getD_some, Option.getD_none, List.getD_cons_zero]
  · exact resTemplateInfrastructure_pos issue
  · exact resTemplateApplication_pos issue
  · exact resTemplateDatabase_pos issue
  · exact resTemplateNetwork_pos issue
  · exact resTemplateSecurity_pos issue
  · exact resTemplateInfrastructure_pos issue

/-- C8: the fallback template generators are total and deterministic —
for every issue (any category, including unrecognized ones, which fall
back to the infrastructure template) and any retrieved entries they
return non-empty text, and two draws of the random source produce
identical output. -/
theorem fallback_templates (issue : Issue) (relevantContent : List ScoredEntry)
    (resolution : String) (r r' : ℚ)
    (h0 : 0 ≤ r) (h1 : r < 1) (h0' : 0 ≤ r') (h1' : r' < 1) :
    0 < (generateResolutionTemplate issue relevantContent r).length ∧
    0 < (generateSOPTemplate issue resolution).length ∧
    generateResolutionTemplate issue relevantContent r =
      generateResolutionTemplate issue relevantContent r' ∧
    (resolutionTemplatesFor issue = none →
      generateResolutionTemplate issue relevantContent r =
        (if 0 < relevantContent.length then
          resTemplateInfrastructure issue ++ ragSection relevantContent
         else resTemplateInfrastructure issue)) ∧
    (sopTemplatesFor issue = none →
      generateSOPTemplate issue resolution = sopTemplateInfrastructure issue) := by
  refine ⟨?_, ?_, ?_, ?_, ?_⟩
  · rw [generateResolutionTemplate_eval issue relevantContent r h0 h1]
    split_ifs
    · exact length_pos_append _ _ (resolution_base_pos issue)
    · exact resolution_base_pos issue
  · rw [generateSOPTemplate, sopTemplatesFor]
    split_ifs <;> simp only [Option.getD_some, Option.getD_none]
    · exact sopTemplateInfrastructure_pos issue
    · exact sopTemplateApplication_pos issue
    · exact sopTemplateDatabase_pos issue
    · exact sopTemplateInfrastructure_pos issue
  · rw [generateResolutionTemplate_eval issue relevantContent r h0 h1,
      generateResolutionTemplate_eval issue relevantContent r' h0' h1']
  · intro hnone
    rw [generateResolutionTemplate_eval issue relevantContent r h0 h1, hnone]
    rfl
  · intro hnone
    rw [generateSOPTemplate, hnone]
    rfl

/-- Witness for C8 at the unrecognized category `other`: both generators
produce non-empty text, the resolution fallback is independent of the
random draw, and both default to the infrastructure template. -/
theorem fallback_templates_witness :
    0 < (generateResolutionTemplate
      { id := 1, title := "t", description := "d", category := "other",
        severity := "low", environment := "staging", status := "open" } [] 0).length ∧
    0 < (generateSOPTemplate
      { id := 1, title := "t", description := "d", category := "other",
        severity := "low", environment := "staging", status := "open" } "x").length ∧
    generateResolutionTemplate
      { id := 1, title := "t", description := "d", category := "other",
        severity := "low", environment := "staging", status := "open" } [] 0 =
      generateResolutionTemplate
        { id := 1, title := "t", description := "d", category := "other",
          severity := "low", environment := "staging", status := "open" } [] (1/2) ∧
    (resolutionTemplatesFor
        { id := 1, title := "t", description := "d", category := "other",
          severity := "low", environment := "staging", status := "open" } = none →
      generateResolutionTemplate
        { id := 1, title := "t", description := "d", category := "other",
          severity := "low", environment := "staging", status := "open" } [] 0 =
        (if 0 < ([] : List ScoredEntry).length then
          resTemplateInfrastructure
            { id := 1, title := "t", description := "d", category := "other",
              severity := "low", environment := "staging", status := "open" } ++
            ragSection []
         else resTemplateInfrastructure
            { id := 1, title := "t", description := "d", category := "other",
              severity := "low", environment := "staging", status := "open" })) ∧
    (sopTemplatesFor
        { id := 1, title := "t", description := "d", category := "other",
          severity := "low", environment := "staging", status := "open" } = none →
      generateSOPTemplate
        { id := 1, title := "t", description := "d", category := "other",
          severity := "low", environment := "staging", status := "open" } "x" =
        sopTemplateInfrastructure
          { id := 1, title := "t", description := "d", category := "other",
            severity := "low", environment := "staging", status := "open" }) :=
  fallback_templates
    { id := 1, title := "t", description := "d", category := "other",
      severity := "low", environment := "staging", status := "open" } [] "x" 0 (1/2)
    (by norm_num) (by norm_num) (by norm_num) (by norm_num)

end Ishtrak
